import Mathlib

/-!
# The radar-chart handler of `server.go`

A shallow embedding of `generateRadarChart`: the cache lookup, the parsing of
the query parameters `cht`, `chs`, `chd` and `chxl`, the two-series rule, the
note, the call of the renderer and the cache write.

Go strings are modelled as `List Char`; every separator the handler splits on
is a single ASCII byte.  The library routines the handler calls
(`strings.Split`, `strings.SplitN`, `strings.TrimPrefix`, `strconv.Atoi`) are
modelled after their documented behaviour on a 64-bit platform.  The float64
routines (`strconv.ParseFloat`, the conversion `int(f)`) and the charting
library are parameters of the embedding.
-/

namespace ImageCharts

/-! ## Library routines -/

namespace strings

/-- Go `strings.Split(s, sep)` for a one-byte separator: the substrings between
the occurrences of `sep`, in order.  The result has one element more than `s`
has separators, so it is never empty; `Split "" sep` is `[""]`. -/
def Split : List Char → Char → List (List Char)
  | [], _ => [[]]
  | c :: cs, sep =>
    if c = sep then [] :: Split cs sep
    else
      match Split cs sep with
      | [] => [[c]]
      | t :: ts => (c :: t) :: ts

/-- Go `strings.Cut(s, sep)` for a one-byte separator: the text before and
after the first `sep`, or `none` when `s` has no `sep`. -/
def Cut : List Char → Char → Option (List Char × List Char)
  | [], _ => none
  | c :: cs, sep =>
    if c = sep then some ([], cs)
    else
      match Cut cs sep with
      | none => none
      | some (a, b) => some (c :: a, b)

/-- Go `strings.SplitN(s, sep, n)` for a one-byte separator and `n ≥ 0`: at
most `n` substrings, the last one being the unsplit remainder; `n = 0` gives
the empty slice. -/
def SplitN : List Char → Char → Nat → List (List Char)
  | _, _, 0 => []
  | s, _, 1 => [s]
  | s, sep, n + 2 =>
    match Cut s sep with
    | none => [s]
    | some (a, b) => a :: SplitN b sep (n + 1)

/-- Go `strings.TrimPrefix(s, p)`: `s` without the leading `p`, or `s` itself
when `s` does not start with `p`. -/
def TrimPrefix (s p : List Char) : List Char :=
  if p.isPrefixOf s then s.drop p.length else s

end strings

namespace strconv

/-- The value of a decimal digit, `none` for any other character. -/
def digit (c : Char) : Option Nat :=
  if '0' ≤ c ∧ c ≤ '9' then some (c.toNat - '0'.toNat) else none

/-- The number written by a string of decimal digits, read left to right onto
the accumulator `n`; `none` when a character is not a digit. -/
def digits : List Char → Nat → Option Nat
  | [], n => some n
  | c :: cs, n =>
    match digit c with
    | none => none
    | some d => digits cs (n * 10 + d)

/-- Go `strconv.Atoi(s)` with a 64-bit `int`: an optional sign followed by at
least one decimal digit, and the value in the range of `int64`; every other
string is an error (`none`). -/
def Atoi (s : List Char) : Option Int :=
  let neg : Bool := s.head? = some '-'
  let body : List Char :=
    match s with
    | '-' :: r => r
    | '+' :: r => r
    | _ => s
  match body with
  | [] => none
  | _ :: _ =>
    match digits body 0 with
    | none => none
    | some n =>
      if neg then
        if n ≤ 2 ^ 63 then some (-(n : Int)) else none
      else
        if n < 2 ^ 63 then some (n : Int) else none

end strconv

/-- The float64 routines the handler relies on, as a parameter: the type of
float64 values, `strconv.ParseFloat(s, 64)` (`none` when it returns an error)
and the conversion `int(f)`. -/
structure Float64 where
  /-- The float64 values. -/
  F : Type
  /-- Go `strconv.ParseFloat(s, 64)`, `none` when it returns an error. -/
  ParseFloat : List Char → Option F
  /-- The Go conversion `int(f)`. -/
  toInt : F → Int

/-- A plain decimal number `mant / 10 ^ scale`, kept with no trailing zero in
the fraction.  Distinct such numbers with at most fifteen significant digits
are distinct float64 values. -/
structure Decimal where
  /-- The signed digits, the point removed. -/
  mant : Int
  /-- The number of digits after the point. -/
  scale : Nat
  deriving DecidableEq, Repr

namespace Decimal

/-- Drops up to `k` trailing zeros of the fraction. -/
def strip : Nat → Nat → Nat → Nat × Nat
  | 0, m, s => (m, s)
  | k + 1, m, s =>
    match s with
    | 0 => (m, 0)
    | s + 1 => if m % 10 = 0 then strip k (m / 10) s else (m, s + 1)

/-- Reads the digits of a plain decimal: the digits seen so far as a number,
how many there are, whether the point was seen and how many digits follow it.
`none` at a second point or at any character that is neither digit nor point. -/
def scan : List Char → Nat → Nat → Bool → Nat → Option (Nat × Nat × Nat)
  | [], m, nd, _, sc => some (m, nd, sc)
  | c :: cs, m, nd, dot, sc =>
    if c = '.' then
      if dot then none else scan cs m nd true sc
    else
      match strconv.digit c with
      | none => none
      | some d => scan cs (m * 10 + d) (nd + 1) dot (if dot then sc + 1 else sc)

/-- The plain-decimal fragment of `strconv.ParseFloat`: an optional sign, then
one to fifteen digits with at most one point among them.  On these strings
`ParseFloat` succeeds with the float64 nearest to the number written; the
fragment leaves out exponents, hexadecimal floats, underscores, `inf` and
`nan`, longer digit strings, and answers `none` for them as it does for the
strings `ParseFloat` rejects, the empty string among them. -/
def parse (s : List Char) : Option Decimal :=
  let neg : Bool := s.head? = some '-'
  let body : List Char :=
    match s with
    | '-' :: r => r
    | '+' :: r => r
    | _ => s
  match scan body 0 0 false 0 with
  | none => none
  | some (m, nd, sc) =>
    if nd = 0 ∨ 15 < nd then none
    else
      let p := strip sc m sc
      some ⟨if neg then -(p.1 : Int) else (p.1 : Int), p.2⟩

/-- The Go conversion `int(f)` on a plain decimal: truncation toward zero. -/
def trunc (d : Decimal) : Int :=
  Int.tdiv d.mant ((10 : Int) ^ d.scale)

end Decimal

/-- The float64 routines restricted to plain decimals, used to evaluate the
handler on concrete requests. -/
def decimalFloat : Float64 where
  F := Decimal
  ParseFloat := Decimal.parse
  toInt := Decimal.trunc

/-! ## The handler's data -/

/-- The bytes of an image. -/
abbrev Bytes := List Nat

/-- The part of `echo.Context` the handler reads: the raw query string, the
four query parameters (`c.QueryParam` gives the empty string for an absent
parameter), and whether `c.Response().Write` succeeds on this connection. -/
structure Context where
  /-- The value of `c.QueryString()`. -/
  QueryString : List Char
  /-- The value of `c.QueryParam("cht")`. -/
  cht : List Char
  /-- The value of `c.QueryParam("chs")`. -/
  chs : List Char
  /-- The value of `c.QueryParam("chd")`. -/
  chd : List Char
  /-- The value of `c.QueryParam("chxl")`. -/
  chxl : List Char
  /-- Whether `c.Response().Write` returns no error. -/
  writeOK : Bool
  deriving DecidableEq

/-- A Go run-time panic of the handler. -/
inductive Panic where
  /-- The panic of `a[i]` with `i` outside `0 ≤ i < len(a)`. -/
  | indexOutOfRange (i : Int) (len : Nat)
  /-- The panic of `a[lo:]` with `lo > len(a)`. -/
  | sliceBoundsOutOfRange (lo : Nat) (len : Nat)
  /-- The `panic(err)` after `charts.Render` returned an error. -/
  | renderError
  deriving DecidableEq, Repr

/-- How the handler leaves its straight path before rendering. -/
inductive Failure where
  /-- The early return `c.String(http.StatusBadRequest, msg)`. -/
  | badRequest (msg : String)
  /-- A run-time panic. -/
  | panic (p : Panic)
  deriving DecidableEq, Repr

/-- What the parsing stage hands to the renderer: the values of `width`,
`height`, `dataSeries`, `note` and `axisLabels` at line 180. -/
structure ChartRequest (F : Type) where
  /-- The argument of `charts.SetDefaultWidth`. -/
  width : Int
  /-- The argument of `charts.SetDefaultHeight`. -/
  height : Int
  /-- The series after the two-series rule. -/
  dataSeries : List (List F)
  /-- The value of `int(dataSeries[0][0])`. -/
  note : Int
  /-- The labels given to `charts.RadarIndicatorOptionFunc`. -/
  axisLabels : List (List Char)
  deriving DecidableEq

/-- The answer of the charting library for one parsed request: an error of
`charts.Render`, an error of `p.Bytes()`, or the image. -/
inductive Rendered where
  /-- The call of `charts.Render` returned an error. -/
  | renderError
  /-- The call of `p.Bytes()` returned an error. -/
  | bytesError
  /-- The image bytes `buf`. -/
  | png (buf : Bytes)
  deriving DecidableEq, Repr

/-- The response the handler produces. -/
inductive Response where
  /-- The plain-text response `c.String(code, body)`. -/
  | String (code : Nat) (body : String)
  /-- Status 200 with `Content-Type: image/png`, the given `Content-Length`,
  `Cache-Control: public, max-age=3600` and the given body. -/
  | png (contentLength : Nat) (body : Bytes)
  deriving DecidableEq, Repr

/-- The end of one run of the handler. -/
inductive Outcome where
  /-- The handler responded. -/
  | respond (r : Response)
  /-- The handler panicked. -/
  | panic (p : Panic)
  deriving DecidableEq, Repr

/-- The unexpired entries of `gocacheClient`, most recent first.  Expiry is
not modelled: an entry leaves the cache only between two runs of the handler. -/
structure Cache where
  /-- The entries, key and image. -/
  items : List (List Char × Bytes)
  deriving DecidableEq

namespace Cache

/-- The call `gocacheClient.Get(k)`: the image stored under `k`, if any. -/
def Get (cache : Cache) (k : List Char) : Option Bytes :=
  (cache.items.find? (fun e => e.1 = k)).map (fun e => e.2)

/-- The call `gocacheClient.Set(k, v, cache.DefaultExpiration)`. -/
def Set (cache : Cache) (k : List Char) (v : Bytes) : Cache :=
  ⟨(k, v) :: cache.items.filter (fun e => e.1 ≠ k)⟩

end Cache

/-! ## The handler -/

/-- The Go index expression `a[i]` for `i ≥ 0`. -/
def index {α : Type} (a : List α) (i : Nat) : Except Failure α :=
  match a[i]? with
  | some x => .ok x
  | none => .error (.panic (.indexOutOfRange i a.length))

/-- The Go slice expression `a[lo:]`. -/
def sliceFrom {α : Type} (a : List α) (lo : Nat) : Except Failure (List α) :=
  if lo ≤ a.length then .ok (a.drop lo)
  else .error (.panic (.sliceBoundsOutOfRange lo a.length))

/-- Lines 125-140: `chs` is split on `x` into exactly two tokens, each read by
`strconv.Atoi`, the width first. -/
def parseSize (sizeString : List Char) : Except Failure (Int × Int) :=
  let size := strings.Split sizeString 'x'
  if size.length ≠ 2 then .error (.badRequest "Invalid chart size")
  else
    match index size 0 with
    | .error e => .error e
    | .ok s0 =>
      match strconv.Atoi s0 with
      | none => .error (.badRequest "Invalid chart width")
      | some width =>
        match index size 1 with
        | .error e => .error e
        | .ok s1 =>
          match strconv.Atoi s1 with
          | none => .error (.badRequest "Invalid chart height")
          | some height => .ok (width, height)

/-- Lines 149-157, the inner loop: the data points of one series are parsed in
order; the first one `ParseFloat` rejects ends the handler (`none`). -/
def seriesData (L : Float64) : List (List Char) → Option (List L.F)
  | [] => some []
  | dataPoint :: rest =>
    match L.ParseFloat dataPoint with
    | none => none
    | some value =>
      match seriesData L rest with
      | none => none
      | some values => some (value :: values)

/-- Lines 147-161, the outer loop: each raw series is split on `,` and parsed;
a series with at least one point is appended to `dataSeries`. -/
def dataSeries (L : Float64) : List (List Char) → Option (List (List L.F))
  | [] => some []
  | series :: rest =>
    match seriesData L (strings.Split series ',') with
    | none => none
    | some sd =>
      match dataSeries L rest with
      | none => none
      | some ds => some (if 0 < sd.length then sd :: ds else ds)

/-- Lines 146-161: the prefix `t:` is trimmed, the rest is split on `|` and
every series is parsed; a rejected data point gives the 400 response. -/
def parseData (L : Float64) (dataString : List Char) : Except Failure (List (List L.F)) :=
  let rawDataSeries := strings.Split (strings.TrimPrefix dataString ['t', ':']) '|'
  match dataSeries L rawDataSeries with
  | none => .error (.badRequest "Invalid data point")
  | some ds => .ok ds

/-- Lines 163-167: with more than two series, the first two are kept and the
first element of the second one is overwritten with its last element. -/
def keepTwo {F : Type} (ds : List (List F)) : Except Failure (List (List F)) :=
  if 2 < ds.length then
    let ds2 := ds.take 2
    match index ds2 1 with
    | .error e => .error e
    | .ok s1 =>
      match s1.getLast? with
      | none => .error (.panic (.indexOutOfRange (-1) 0))
      | some last =>
        match s1 with
        | [] => .error (.panic (.indexOutOfRange 0 0))
        | _ :: tl => .ok (ds2.set 1 (last :: tl))
  else .ok ds

/-- Line 170: `note := int(dataSeries[0][0])`. -/
def noteOf (L : Float64) (ds : List (List L.F)) : Except Failure Int :=
  match index ds 0 with
  | .error e => .error e
  | .ok s0 =>
    match index s0 0 with
    | .error e => .error e
    | .ok v => .ok (L.toInt v)

/-- Lines 172-178: the text after the first `:` of `chxl` is split on `|` and
the first element of the result is trimmed. -/
def parseAxisLabels (axisLabelsString : List Char) : Except Failure (List (List Char)) :=
  match index (strings.SplitN axisLabelsString ':' 2) 0 with
  | .error e => .error e
  | .ok _ =>
    match index (strings.SplitN axisLabelsString ':' 2) 1 with
    | .error e => .error e
    | .ok axisLabelsPart => sliceFrom (strings.Split axisLabelsPart '|') 1

/-- Lines 146-178 for a given width and height: the data series, the
two-series rule, the note and the axis labels. -/
def parseAfterSize (L : Float64) (width height : Int) (c : Context) :
    Except Failure (ChartRequest L.F) :=
  match parseData L c.chd with
  | .error e => .error e
  | .ok ds =>
    match keepTwo ds with
    | .error e => .error e
    | .ok ds =>
      match noteOf L ds with
      | .error e => .error e
      | .ok note =>
        match parseAxisLabels c.chxl with
        | .error e => .error e
        | .ok axisLabels => .ok ⟨width, height, ds, note, axisLabels⟩

/-- Lines 111-178, the parsing stage of a cache miss: chart type, size, data
series, two-series rule, note and axis labels, in this order. -/
def parseRequest (L : Float64) (c : Context) : Except Failure (ChartRequest L.F) :=
  if c.cht ≠ ['r'] then .error (.badRequest "Unsupported chart type")
  else
    match parseSize c.chs with
    | .error e => .error e
    | .ok (width, height) => parseAfterSize L width height c

/-- The handler `generateRadarChart`, from the cache state before the request
to the outcome and the cache state after it.  `render` stands for lines
180-256, the charting library applied to the parsed request. -/
def generateRadarChart (L : Float64) (render : ChartRequest L.F → Rendered)
    (cache : Cache) (c : Context) : Outcome × Cache :=
  match cache.Get c.QueryString with
  | some image =>
    if c.writeOK then (.respond (.png image.length image), cache)
    else (.respond (.String 500 "Failed to send chart image"), cache)
  | none =>
    match parseRequest L c with
    | .error (.badRequest msg) => (.respond (.String 400 msg), cache)
    | .error (.panic p) => (.panic p, cache)
    | .ok r =>
      match render r with
      | .renderError => (.panic .renderError, cache)
      | .bytesError => (.respond (.String 500 "Failed to generate chart"), cache)
      | .png buf =>
        if c.writeOK then (.respond (.png buf.length buf), cache.Set c.QueryString buf)
        else (.respond (.String 500 "Failed to send chart image"), cache)

/-! ## The shape of `chxl` -/

/-- The text `|l0|l1|...|ln` of a list of labels. -/
def labelList : List (List Char) → List Char
  | [] => []
  | l :: ls => '|' :: l ++ labelList ls

/-- The `chxl` value `<index>:|l0|l1|...|ln`. -/
def chxlText (index : List Char) (labels : List (List Char)) : List Char :=
  index ++ ':' :: labelList labels

/-! ## Library facts -/

open strings strconv

theorem Split_ne_nil (s : List Char) (sep : Char) : Split s sep ≠ [] := by
  induction s with
  | nil => simp [Split]
  | cons c cs ih =>
    simp only [Split]
    split
    · simp
    · split <;> simp

theorem seriesData_forall₂ (L : Float64) :
    ∀ (ps : List (List Char)) (vs : List L.F), seriesData L ps = some vs →
      List.Forall₂ (fun p v => L.ParseFloat p = some v) ps vs := by
  intro ps
  induction ps with
  | nil =>
    intro vs h
    simp only [seriesData, Option.some.injEq] at h
    subst h
    exact List.Forall₂.nil
  | cons p ps ih =>
    intro vs h
    simp only [seriesData] at h
    cases hp : L.ParseFloat p with
    | none => simp [hp] at h
    | some v =>
      cases hr : seriesData L ps with
      | none => simp [hp, hr] at h
      | some vs' =>
        simp only [hp, hr, Option.some.injEq] at h
        subst h
        exact List.Forall₂.cons hp (ih vs' hr)

theorem seriesData_length (L : Float64) (ps : List (List Char)) (vs : List L.F)
    (h : seriesData L ps = some vs) : vs.length = ps.length :=
  (seriesData_forall₂ L ps vs h).length_eq.symm

theorem seriesData_split_ne_nil (L : Float64) (s : List Char) (sd : List L.F)
    (h : seriesData L (Split s ',') = some sd) : sd ≠ [] := by
  intro hsd
  have hl := seriesData_length L _ _ h
  have hne := Split_ne_nil s ','
  rw [hsd] at hl
  exact hne (List.length_eq_zero.mp hl.symm)

theorem dataSeries_forall₂ (L : Float64) :
    ∀ (raw : List (List Char)) (ds : List (List L.F)), dataSeries L raw = some ds →
      List.Forall₂ (fun s sd => seriesData L (Split s ',') = some sd) raw ds := by
  intro raw
  induction raw with
  | nil =>
    intro ds h
    simp only [dataSeries, Option.some.injEq] at h
    subst h
    exact List.Forall₂.nil
  | cons s raw ih =>
    intro ds h
    simp only [dataSeries] at h
    cases hs : seriesData L (Split s ',') with
    | none => simp [hs] at h
    | some sd =>
      cases hr : dataSeries L raw with
      | none => simp [hs, hr] at h
      | some ds' =>
        have hpos : 0 < sd.length :=
          List.length_pos.mpr (seriesData_split_ne_nil L s sd hs)
        simp only [hs, hr, hpos, if_true, Option.some.injEq] at h
        subst h
        exact List.Forall₂.cons hs (ih ds' hr)


theorem dataSeries_length (L : Float64) (raw : List (List Char)) (ds : List (List L.F))
    (h : dataSeries L raw = some ds) : ds.length = raw.length :=
  (dataSeries_forall₂ L raw ds h).length_eq.symm

theorem forall₂_series_ne_nil (L : Float64) :
    ∀ (raw : List (List Char)) (ds : List (List L.F)),
      List.Forall₂ (fun s sd => seriesData L (Split s ',') = some sd) raw ds →
      ∀ sd ∈ ds, sd ≠ [] := by
  intro raw ds h
  induction h with
  | nil => intro sd hsd; simp at hsd
  | cons hs _ ih =>
    intro sd hsd
    rcases List.mem_cons.mp hsd with rfl | hmem
    · exact seriesData_split_ne_nil L _ _ hs
    · exact ih sd hmem

theorem parseData_ok (L : Float64) (chd : List Char) (ds : List (List L.F))
    (h : parseData L chd = .ok ds) :
    dataSeries L (Split (TrimPrefix chd ['t', ':']) '|') = some ds := by
  simp only [parseData] at h
  cases hd : dataSeries L (Split (TrimPrefix chd ['t', ':']) '|') with
  | none => simp [hd] at h
  | some ds' =>
    simp only [hd, Except.ok.injEq] at h
    rw [h]

theorem parseData_ne_nil (L : Float64) (chd : List Char) (ds : List (List L.F))
    (h : parseData L chd = .ok ds) : ds ≠ [] ∧ ∀ sd ∈ ds, sd ≠ [] := by
  have hd := parseData_ok L chd ds h
  refine ⟨?_, forall₂_series_ne_nil L _ _ (dataSeries_forall₂ L _ _ hd)⟩
  intro hnil
  have hl := dataSeries_length L _ _ hd
  rw [hnil] at hl
  exact Split_ne_nil _ _ (List.length_eq_zero.mp hl.symm)

theorem keepTwo_le {F : Type} (ds : List (List F)) (h : ds.length ≤ 2) :
    keepTwo ds = .ok ds := by
  simp [keepTwo, Nat.not_lt.mpr h]

theorem keepTwo_gt {F : Type} (s0 : List F) (v : F) (tl : List F) (s2 : List F)
    (rest : List (List F)) :
    keepTwo (s0 :: (v :: tl) :: s2 :: rest)
      = .ok [s0, (v :: tl).getLast (List.cons_ne_nil v tl) :: tl] := by
  simp [keepTwo, index, List.getLast?_eq_getLast]

theorem getLast?_cons_getLast {F : Type} (v : F) (tl : List F) :
    ((v :: tl).getLast (List.cons_ne_nil v tl) :: tl).getLast?
      = some ((v :: tl).getLast (List.cons_ne_nil v tl)) := by
  cases tl with
  | nil => simp
  | cons a as => simp [List.getLast?_eq_getLast]

theorem dataSeries_none_of_mem (L : Float64) (hempty : L.ParseFloat [] = none) :
    ∀ raw : List (List Char), [] ∈ raw → dataSeries L raw = none := by
  intro raw
  induction raw with
  | nil => intro h; simp at h
  | cons s raw ih =>
    intro h
    rcases List.mem_cons.mp h with heq | hmem
    · subst heq
      simp [dataSeries, Split, seriesData, hempty]
    · simp only [dataSeries, ih hmem]
      cases seriesData L (Split s ',') <;> rfl


/-! ## C1, C6: the two-series rule -/

/-- C1, as the claim states it, fails: on `chd=t:10,20,30|5,-1,15` the parsing
stage succeeds with exactly two series, and the second one is still
`[5,-1,15]`, whose first element differs from its last. -/
theorem C1_two_series_not_mirrored :
    ∃ r : ChartRequest Decimal,
      parseRequest decimalFloat
          ⟨[], ['r'], "225x225".toList, "t:10,20,30|5,-1,15".toList,
            "0:|note|mus|reg".toList, true⟩ = .ok r ∧
        r.dataSeries = [[⟨10, 0⟩, ⟨20, 0⟩, ⟨30, 0⟩], [⟨5, 0⟩, ⟨-1, 0⟩, ⟨15, 0⟩]] ∧
        r.dataSeries.length = 2 ∧
        (r.dataSeries[1]?).bind List.head? ≠ (r.dataSeries[1]?).bind List.getLast? :=
  ⟨⟨225, 225, [[⟨10, 0⟩, ⟨20, 0⟩, ⟨30, 0⟩], [⟨5, 0⟩, ⟨-1, 0⟩, ⟨15, 0⟩]], 10,
      ["note".toList, "mus".toList, "reg".toList]⟩,
    by rfl, by rfl, by rfl, by decide⟩

/-- C1 (amended): for every `chd` that parses successfully, a list of at most
two series is left as parsed, and a list of more than two series becomes
exactly two series, the second of which has its first element equal to its
last element. -/
theorem C1_mirror_only_after_truncation (L : Float64) (chd : List Char)
    (ds : List (List L.F)) (h : parseData L chd = .ok ds) :
    (ds.length ≤ 2 → keepTwo ds = .ok ds) ∧
    (2 < ds.length →
      ∃ (s0 s1 : List L.F) (v : L.F),
        keepTwo ds = .ok [s0, s1] ∧ s1.head? = some v ∧ s1.getLast? = some v) := by
  refine ⟨keepTwo_le ds, ?_⟩
  intro hlen
  obtain ⟨_, hne⟩ := parseData_ne_nil L chd ds h
  match ds, hlen, hne with
  | s0 :: [] :: s2 :: rest, _, hne => exact absurd rfl (hne [] (by simp))
  | s0 :: (v :: tl) :: s2 :: rest, _, _ =>
    exact ⟨s0, _, (v :: tl).getLast (List.cons_ne_nil v tl), keepTwo_gt s0 v tl s2 rest,
      by simp, getLast?_cons_getLast v tl⟩

/-- C1 (amended) at `chd=t:10,20,30|1,2,3|4,5,6` and at `chd=t:10,20,30|5,-1,15`. -/
theorem C1_mirror_only_after_truncation_witness :
    (∃ (s0 s1 : List Decimal) (v : Decimal),
      keepTwo ([[⟨10, 0⟩, ⟨20, 0⟩, ⟨30, 0⟩], [⟨1, 0⟩, ⟨2, 0⟩, ⟨3, 0⟩],
          [⟨4, 0⟩, ⟨5, 0⟩, ⟨6, 0⟩]] : List (List Decimal)) = .ok [s0, s1] ∧
        s1.head? = some v ∧ s1.getLast? = some v) ∧
    keepTwo ([[⟨10, 0⟩, ⟨20, 0⟩, ⟨30, 0⟩], [⟨5, 0⟩, ⟨-1, 0⟩, ⟨15, 0⟩]] : List (List Decimal))
      = .ok [[⟨10, 0⟩, ⟨20, 0⟩, ⟨30, 0⟩], [⟨5, 0⟩, ⟨-1, 0⟩, ⟨15, 0⟩]] :=
  ⟨(C1_mirror_only_after_truncation decimalFloat "t:10,20,30|1,2,3|4,5,6".toList
      [[⟨10, 0⟩, ⟨20, 0⟩, ⟨30, 0⟩], [⟨1, 0⟩, ⟨2, 0⟩, ⟨3, 0⟩], [⟨4, 0⟩, ⟨5, 0⟩, ⟨6, 0⟩]]
      (by rfl)).2 (by decide),
   (C1_mirror_only_after_truncation decimalFloat "t:10,20,30|5,-1,15".toList
      [[⟨10, 0⟩, ⟨20, 0⟩, ⟨30, 0⟩], [⟨5, 0⟩, ⟨-1, 0⟩, ⟨15, 0⟩]] (by rfl)).1 (by decide)⟩

/-- C6: for every `chd` that parses to more than two series, the two-series
rule yields exactly two series: the first parsed series unchanged, and the
second parsed series with element 0 replaced by its own last element (same
length, every other element unchanged); the third and later series are
dropped. -/
theorem C6_more_than_two_series (L : Float64) (chd : List Char)
    (ds : List (List L.F)) (h : parseData L chd = .ok ds) (hlen : 2 < ds.length) :
    ∃ (s0 s1 : List L.F) (rest : List (List L.F)) (last : L.F),
      ds = s0 :: s1 :: rest ∧ s1.getLast? = some last ∧
        keepTwo ds = .ok [s0, s1.set 0 last] ∧
        (s1.set 0 last).length = s1.length ∧
        (s1.set 0 last)[0]? = some last ∧
        ∀ i, 0 < i → (s1.set 0 last)[i]? = s1[i]? := by
  obtain ⟨_, hne⟩ := parseData_ne_nil L chd ds h
  match ds, hlen, hne with
  | s0 :: [] :: s2 :: rest, _, hne => exact absurd rfl (hne [] (by simp))
  | s0 :: (v :: tl) :: s2 :: rest, _, _ =>
    refine ⟨s0, v :: tl, s2 :: rest, (v :: tl).getLast (List.cons_ne_nil v tl), rfl,
      List.getLast?_eq_getLast _ _, ?_, by simp, by simp, ?_⟩
    · rw [keepTwo_gt]; simp
    · intro i hi
      obtain ⟨j, rfl⟩ := Nat.exists_eq_succ_of_ne_zero (Nat.pos_iff_ne_zero.mp hi)
      simp

/-- C6 at `chd=t:10,20,30|1,2,3|4,5,6`: the request is parsed to
`[[10,20,30],[3,2,3]]`. -/
theorem C6_more_than_two_series_witness :
    parseRequest decimalFloat
        ⟨[], ['r'], "225x225".toList, "t:10,20,30|1,2,3|4,5,6".toList,
          "0:|note|mus|reg".toList, true⟩
      = .ok ⟨225, 225, [[⟨10, 0⟩, ⟨20, 0⟩, ⟨30, 0⟩], [⟨3, 0⟩, ⟨2, 0⟩, ⟨3, 0⟩]], 10,
          ["note".toList, "mus".toList, "reg".toList]⟩ ∧
    ∃ (s0 s1 : List Decimal) (rest : List (List Decimal)) (last : Decimal),
      ([[⟨10, 0⟩, ⟨20, 0⟩, ⟨30, 0⟩], [⟨1, 0⟩, ⟨2, 0⟩, ⟨3, 0⟩], [⟨4, 0⟩, ⟨5, 0⟩, ⟨6, 0⟩]] :
          List (List Decimal)) = s0 :: s1 :: rest ∧
        s1.getLast? = some last ∧
        keepTwo ([[⟨10, 0⟩, ⟨20, 0⟩, ⟨30, 0⟩], [⟨1, 0⟩, ⟨2, 0⟩, ⟨3, 0⟩],
          [⟨4, 0⟩, ⟨5, 0⟩, ⟨6, 0⟩]] : List (List Decimal)) = .ok [s0, s1.set 0 last] ∧
        (s1.set 0 last).length = s1.length ∧
        (s1.set 0 last)[0]? = some last ∧
        ∀ i, 0 < i → (s1.set 0 last)[i]? = s1[i]? :=
  ⟨by rfl,
   C6_more_than_two_series decimalFloat "t:10,20,30|1,2,3|4,5,6".toList
      [[⟨10, 0⟩, ⟨20, 0⟩, ⟨30, 0⟩], [⟨1, 0⟩, ⟨2, 0⟩, ⟨3, 0⟩], [⟨4, 0⟩, ⟨5, 0⟩, ⟨6, 0⟩]]
      (by rfl) (by decide)⟩


/-! ## C5, C10: empty series segments and the note -/

/-- C5, as the claim states it, fails: on `chd=t:1,2||3,4` the empty segment
is not dropped; the handler answers 400 "Invalid data point". -/
theorem C5_empty_segment_rejected :
    parseData decimalFloat "t:1,2||3,4".toList = .error (.badRequest "Invalid data point") ∧
    parseData decimalFloat [] = .error (.badRequest "Invalid data point") ∧
    ∀ render : ChartRequest Decimal → Rendered,
      generateRadarChart decimalFloat render ⟨[]⟩
          ⟨"cht=r&chs=225x225&chd=t:1,2||3,4&chxl=0:|a|b".toList, ['r'], "225x225".toList,
            "t:1,2||3,4".toList, "0:|a|b".toList, true⟩
        = (.respond (.String 400 "Invalid data point"), ⟨[]⟩) :=
  ⟨by rfl, by rfl, fun _ => by rfl⟩

/-- C5 (amended): no series segment is ever dropped.  When `ParseFloat`
rejects the empty string, as Go's does, a `chd` with an empty segment is
rejected with "Invalid data point"; and whenever parsing succeeds the series
list has one series for each segment, in order, each being the parsed points
of its segment. -/
theorem C5_segments_never_dropped (L : Float64) (chd : List Char) :
    (L.ParseFloat [] = none → [] ∈ Split (TrimPrefix chd ['t', ':']) '|' →
      parseData L chd = .error (.badRequest "Invalid data point")) ∧
    (∀ ds : List (List L.F), parseData L chd = .ok ds →
      List.Forall₂ (fun segment sd => seriesData L (Split segment ',') = some sd)
        (Split (TrimPrefix chd ['t', ':']) '|') ds) := by
  constructor
  · intro hempty hmem
    simp [parseData, dataSeries_none_of_mem L hempty _ hmem]
  · intro ds h
    exact dataSeries_forall₂ L _ ds (parseData_ok L chd ds h)

/-- C5 (amended) at `chd=t:1,2||3,4` and at `chd=t:1,2|3,4`. -/
theorem C5_segments_never_dropped_witness :
    parseData decimalFloat "t:1,2||3,4".toList = .error (.badRequest "Invalid data point") ∧
    List.Forall₂ (fun segment sd => seriesData decimalFloat (Split segment ',') = some sd)
      (Split (TrimPrefix "t:1,2|3,4".toList ['t', ':']) '|')
      ([[⟨1, 0⟩, ⟨2, 0⟩], [⟨3, 0⟩, ⟨4, 0⟩]] : List (List Decimal)) :=
  ⟨(C5_segments_never_dropped decimalFloat "t:1,2||3,4".toList).1 (by rfl) (by decide),
   (C5_segments_never_dropped decimalFloat "t:1,2|3,4".toList).2
      [[⟨1, 0⟩, ⟨2, 0⟩], [⟨3, 0⟩, ⟨4, 0⟩]] (by rfl)⟩

/-- C10, as the claim states it, fails: there is no `chd`, whatever
`ParseFloat` is, for which data-series parsing succeeds and the note
computation `int(dataSeries[0][0])` then fails. -/
theorem C10_note_never_out_of_range :
    ¬ ∃ (L : Float64) (chd : List Char) (ds ds2 : List (List L.F)) (e : Failure),
        parseData L chd = .ok ds ∧ keepTwo ds = .ok ds2 ∧ noteOf L ds2 = .error e := by
  rintro ⟨L, chd, ds, ds2, e, h, hk, hn⟩
  obtain ⟨hne0, hne⟩ := parseData_ne_nil L chd ds h
  match ds, hne0, hne with
  | [] :: rest, _, hne => exact absurd rfl (hne [] (by simp))
  | [v :: tl], _, _ =>
    rw [keepTwo_le _ (by simp)] at hk
    cases hk
    simp [noteOf, index] at hn
  | [v :: tl, s1], _, _ =>
    rw [keepTwo_le _ (by simp)] at hk
    cases hk
    simp [noteOf, index] at hn
  | (v :: tl) :: [] :: s2 :: rest, _, hne => exact absurd rfl (hne [] (by simp))
  | (v :: tl) :: (w :: tl1) :: s2 :: rest, _, _ =>
    rw [keepTwo_gt] at hk
    cases hk
    simp [noteOf, index] at hn

/-- C10 (amended): whenever data-series parsing gets past "Invalid data
point", the series list after the two-series rule has a first series with a
first data point, and the note is computed from it; the empty `chd` does not
get that far when `ParseFloat` rejects the empty string: it is answered with
"Invalid data point". -/
theorem C10_note_always_defined (L : Float64) (chd : List Char) :
    (∀ ds : List (List L.F), parseData L chd = .ok ds →
      ∃ (v : L.F) (tl : List L.F) (rest : List (List L.F)),
        keepTwo ds = .ok ((v :: tl) :: rest) ∧
          noteOf L ((v :: tl) :: rest) = .ok (L.toInt v)) ∧
    (L.ParseFloat [] = none →
      parseData L [] = .error (.badRequest "Invalid data point")) := by
  constructor
  · intro ds h
    obtain ⟨hne0, hne⟩ := parseData_ne_nil L chd ds h
    match ds, hne0, hne with
    | [] :: rest, _, hne => exact absurd rfl (hne [] (by simp))
    | [v :: tl], _, _ => exact ⟨v, tl, [], keepTwo_le _ (by simp), by simp [noteOf, index]⟩
    | [v :: tl, s1], _, _ =>
      exact ⟨v, tl, [s1], keepTwo_le _ (by simp), by simp [noteOf, index]⟩
    | (v :: tl) :: [] :: s2 :: rest, _, hne => exact absurd rfl (hne [] (by simp))
    | (v :: tl) :: (w :: tl1) :: s2 :: rest, _, _ =>
      exact ⟨v, tl, _, keepTwo_gt _ w tl1 s2 rest, by simp [noteOf, index]⟩
  · intro hempty
    have hd : dataSeries L (Split (TrimPrefix [] ['t', ':']) '|') = none :=
      dataSeries_none_of_mem L hempty _ (by simp [TrimPrefix, Split])
    simp [parseData, hd]

/-- C10 (amended) at `chd=t:69.12,77|5` and at the empty `chd`. -/
theorem C10_note_always_defined_witness :
    (∃ (v : Decimal) (tl : List Decimal) (rest : List (List Decimal)),
      keepTwo ([[⟨6912, 2⟩, ⟨77, 0⟩], [⟨5, 0⟩]] : List (List Decimal))
          = .ok ((v :: tl) :: rest) ∧
        noteOf decimalFloat ((v :: tl) :: rest) = .ok (Decimal.trunc v)) ∧
    parseData decimalFloat [] = .error (.badRequest "Invalid data point") :=
  ⟨(C10_note_always_defined decimalFloat "t:69.12,77|5".toList).1
      [[⟨6912, 2⟩, ⟨77, 0⟩], [⟨5, 0⟩]] (by rfl),
   (C10_note_always_defined decimalFloat []).2 (by rfl)⟩


/-! ## Inversion of the parsing stage -/

theorem parseAfterSize_ok (L : Float64) (w h : Int) (c : Context) (r : ChartRequest L.F)
    (hr : parseAfterSize L w h c = .ok r) :
    r.width = w ∧ r.height = h ∧
      ∃ ds : List (List L.F), parseData L c.chd = .ok ds ∧ keepTwo ds = .ok r.dataSeries ∧
        noteOf L r.dataSeries = .ok r.note ∧ parseAxisLabels c.chxl = .ok r.axisLabels := by
  unfold parseAfterSize at hr
  split at hr
  · cases hr
  · rename_i ds hds
    split at hr
    · cases hr
    · rename_i ds2 hds2
      split at hr
      · cases hr
      · rename_i note hnote
        split at hr
        · cases hr
        · rename_i labels hlabels
          cases hr
          exact ⟨rfl, rfl, ds, hds, hds2, hnote, hlabels⟩

theorem parseRequest_ok (L : Float64) (c : Context) (r : ChartRequest L.F)
    (hr : parseRequest L c = .ok r) :
    c.cht = ['r'] ∧ parseSize c.chs = .ok (r.width, r.height) ∧
      ∃ ds : List (List L.F), parseData L c.chd = .ok ds ∧ keepTwo ds = .ok r.dataSeries ∧
        noteOf L r.dataSeries = .ok r.note ∧ parseAxisLabels c.chxl = .ok r.axisLabels := by
  unfold parseRequest at hr
  split at hr
  · cases hr
  · rename_i hcht
    split at hr
    · cases hr
    · rename_i w h hsize
      obtain ⟨hw, hh, rest⟩ := parseAfterSize_ok L w h c r hr
      exact ⟨not_not.mp hcht, by rw [hsize, hw, hh], rest⟩

/-! ## C2: the axis labels -/

theorem Cut_append (index rest : List Char) (sep : Char) (h : sep ∉ index) :
    Cut (index ++ sep :: rest) sep = some (index, rest) := by
  induction index with
  | nil => simp [Cut]
  | cons c cs ih =>
    have hc : c ≠ sep := fun e => h (by simp [e])
    have hcs : sep ∉ cs := fun e => h (List.mem_cons_of_mem _ e)
    simp [Cut, hc, ih hcs]

theorem Split_of_not_mem (l : List Char) (sep : Char) (h : sep ∉ l) :
    Split l sep = [l] := by
  induction l with
  | nil => simp [Split]
  | cons c cs ih =>
    have hc : c ≠ sep := fun e => h (by simp [e])
    have hcs : sep ∉ cs := fun e => h (List.mem_cons_of_mem _ e)
    simp [Split, hc, ih hcs]

theorem Split_append (l rest : List Char) (sep : Char) (h : sep ∉ l) :
    Split (l ++ sep :: rest) sep = l :: Split rest sep := by
  induction l with
  | nil => simp [Split]
  | cons c cs ih =>
    have hc : c ≠ sep := fun e => h (by simp [e])
    have hcs : sep ∉ cs := fun e => h (List.mem_cons_of_mem _ e)
    simp [Split, hc, ih hcs]

theorem Split_append_labelList :
    ∀ (labels : List (List Char)) (l : List Char), '|' ∉ l → (∀ m ∈ labels, '|' ∉ m) →
      Split (l ++ labelList labels) '|' = l :: labels := by
  intro labels
  induction labels with
  | nil =>
    intro l hl _
    simp [labelList, Split_of_not_mem l '|' hl]
  | cons m ms ih =>
    intro l hl hms
    simp only [labelList, List.cons_append]
    rw [Split_append l _ '|' hl, ih m (hms m (by simp)) (fun x hx => hms x (by simp [hx]))]

theorem parseAxisLabels_chxlText (idx : List Char) (labels : List (List Char))
    (hidx : ':' ∉ idx) (hlabels : ∀ l ∈ labels, '|' ∉ l) :
    parseAxisLabels (chxlText idx labels) = .ok labels := by
  have hsplit : Split (labelList labels) '|' = [] :: labels := by
    have := Split_append_labelList labels [] (by simp) hlabels
    simpa using this
  simp [parseAxisLabels, chxlText, SplitN, Cut_append idx _ ':' hidx, index, hsplit,
    sliceFrom]

/-- C2, as the claim states it, fails: on `chxl=0:|note|mus|reg` the axis
labels handed to the renderer are `["note","mus","reg"]`, not `["mus","reg"]`. -/
theorem C2_first_label_kept :
    ∃ r : ChartRequest Decimal,
      parseRequest decimalFloat
          ⟨[], ['r'], "225x225".toList, "t:10,20,30".toList, "0:|note|mus|reg".toList,
            true⟩ = .ok r ∧
        r.axisLabels = ["note".toList, "mus".toList, "reg".toList] ∧
        r.axisLabels ≠ ["mus".toList, "reg".toList] :=
  ⟨⟨225, 225, [[⟨10, 0⟩, ⟨20, 0⟩, ⟨30, 0⟩]], 10, ["note".toList, "mus".toList, "reg".toList]⟩,
    by rfl, by rfl, by decide⟩

/-- C2 (amended): for every `chxl` of the form `<index>:|l0|l1|...|ln` (no `:`
in the index, no `|` in a label), the axis labels are `[l0, l1, ..., ln]`:
only the empty text between the colon and the first `|` is dropped, every
label is kept.  The axis-label step produces this list, and it is the list
in every parsed request. -/
theorem C2_axis_labels (L : Float64) (c : Context) (index : List Char)
    (labels : List (List Char)) (hindex : ':' ∉ index) (hlabels : ∀ l ∈ labels, '|' ∉ l)
    (hc : c.chxl = chxlText index labels) :
    parseAxisLabels c.chxl = .ok labels ∧
      ∀ r : ChartRequest L.F, parseRequest L c = .ok r → r.axisLabels = labels := by
  have h := parseAxisLabels_chxlText index labels hindex hlabels
  rw [← hc] at h
  refine ⟨h, ?_⟩
  intro r hr
  obtain ⟨_, _, _, _, _, _, hax⟩ := parseRequest_ok L c r hr
  rw [h] at hax
  cases hax
  rfl

/-- C2 (amended) at `chxl=0:|note|mus|reg`. -/
theorem C2_axis_labels_witness :
    parseAxisLabels "0:|note|mus|reg".toList
        = .ok ["note".toList, "mus".toList, "reg".toList] ∧
      ∀ r : ChartRequest Decimal,
        parseRequest decimalFloat
            ⟨[], ['r'], "225x225".toList, "t:10,20,30".toList, "0:|note|mus|reg".toList,
              true⟩ = .ok r →
          r.axisLabels = ["note".toList, "mus".toList, "reg".toList] :=
  C2_axis_labels decimalFloat
    ⟨[], ['r'], "225x225".toList, "t:10,20,30".toList, "0:|note|mus|reg".toList, true⟩
    ['0'] ["note".toList, "mus".toList, "reg".toList] (by decide) (by decide) (by rfl)


/-! ## C3: a `chxl` without a colon -/

/-- C3 at its failing input: with `cht=r`, `chs=225x225`, `chd=t:1,2,3` and
`chxl` absent, the handler does not answer 400: it panics on the index
expression `strings.SplitN(axisLabelsString, ":", 2)[1]`, index 1 of a slice
of length 1. -/
theorem C3_chxl_without_colon_panics (render : ChartRequest Decimal → Rendered) :
    parseAxisLabels [] = .error (.panic (.indexOutOfRange 1 1)) ∧
    generateRadarChart decimalFloat render ⟨[]⟩
        ⟨"cht=r&chs=225x225&chd=t:1,2,3".toList, ['r'], "225x225".toList, "t:1,2,3".toList,
          [], true⟩
      = (.panic (.indexOutOfRange 1 1), ⟨[]⟩) :=
  ⟨by rfl, by rfl⟩

/-! ## C4, C7: the chart size -/

theorem parseSize_pair (chs a b : List Char) (h : Split chs 'x' = [a, b]) :
    parseSize chs =
      match Atoi a with
      | none => .error (.badRequest "Invalid chart width")
      | some width =>
        match Atoi b with
        | none => .error (.badRequest "Invalid chart height")
        | some height => .ok (width, height) := by
  simp [parseSize, h, index]

theorem parseSize_ok (chs : List Char) (w h : Int) (hs : parseSize chs = .ok (w, h)) :
    ∃ a b : List Char, Split chs 'x' = [a, b] ∧ Atoi a = some w ∧ Atoi b = some h := by
  unfold parseSize at hs
  simp only at hs
  split at hs
  · cases hs
  · rename_i hlen
    match hsp : Split chs 'x', hlen with
    | [a, b], _ =>
      refine ⟨a, b, rfl, ?_⟩
      simp only [hsp, index, List.getElem?_cons_zero, List.getElem?_cons_succ] at hs
      cases ha : Atoi a with
      | none => simp [ha] at hs
      | some w' =>
        cases hb : Atoi b with
        | none => simp [ha, hb] at hs
        | some h' =>
          simp only [ha, hb, Except.ok.injEq, Prod.mk.injEq] at hs
          rw [hs.1, hs.2]
          exact ⟨rfl, rfl⟩
    | [], hlen => simp at hlen
    | [_], hlen => simp at hlen
    | _ :: _ :: _ :: _, hlen => simp at hlen

theorem Atoi_range (s : List Char) (v : Int) (h : Atoi s = some v) :
    -(2 : Int) ^ 63 ≤ v ∧ v < (2 : Int) ^ 63 := by
  unfold Atoi at h
  simp only at h
  split at h
  · cases h
  · split at h
    · cases h
    · rename_i n _
      split at h
      · split at h
        · cases h
          rename_i hn
          norm_num at hn ⊢
          omega
        · cases h
      · split at h
        · cases h
          rename_i hn
          norm_num at hn ⊢
          omega
        · cases h


/-- C4: on a cache miss with `cht=r`, for every `chs`: when splitting on `x`
does not give exactly two tokens the response is 400 "Invalid chart size";
otherwise when `Atoi` rejects the first token it is 400 "Invalid chart width",
whatever the second token is; otherwise when `Atoi` rejects the second token it
is 400 "Invalid chart height"; otherwise size parsing succeeds and the width
and height the handler goes on with are the two parsed integers. -/
theorem C4_chart_size (L : Float64) (render : ChartRequest L.F → Rendered) (cache : Cache)
    (c : Context) (hmiss : cache.Get c.QueryString = none) (hcht : c.cht = ['r']) :
    ((Split c.chs 'x').length ≠ 2 →
      generateRadarChart L render cache c
        = (.respond (.String 400 "Invalid chart size"), cache)) ∧
    (∀ a b : List Char, Split c.chs 'x' = [a, b] → Atoi a = none →
      generateRadarChart L render cache c
        = (.respond (.String 400 "Invalid chart width"), cache)) ∧
    (∀ (a b : List Char) (w : Int), Split c.chs 'x' = [a, b] → Atoi a = some w →
      Atoi b = none →
      generateRadarChart L render cache c
        = (.respond (.String 400 "Invalid chart height"), cache)) ∧
    (∀ (a b : List Char) (w h : Int), Split c.chs 'x' = [a, b] → Atoi a = some w →
      Atoi b = some h →
      parseSize c.chs = .ok (w, h) ∧ parseRequest L c = parseAfterSize L w h c ∧
        ∀ r : ChartRequest L.F, parseRequest L c = .ok r → r.width = w ∧ r.height = h) := by
  refine ⟨?_, ?_, ?_, ?_⟩
  · intro hlen
    simp [generateRadarChart, hmiss, parseRequest, hcht, parseSize, hlen]
  · intro a b hsp ha
    simp [generateRadarChart, hmiss, parseRequest, hcht, parseSize_pair _ a b hsp, ha]
  · intro a b w hsp ha hb
    simp [generateRadarChart, hmiss, parseRequest, hcht, parseSize_pair _ a b hsp, ha, hb]
  · intro a b w h hsp ha hb
    have hsize : parseSize c.chs = .ok (w, h) := by
      simp [parseSize_pair _ a b hsp, ha, hb]
    have hreq : parseRequest L c = parseAfterSize L w h c := by
      simp [parseRequest, hcht, hsize]
    refine ⟨hsize, hreq, ?_⟩
    intro r hr
    rw [hreq] at hr
    obtain ⟨hw, hh, _⟩ := parseAfterSize_ok L w h c r hr
    exact ⟨hw, hh⟩

/-- C4 at `chs=225`, `chs=abcx225`, `chs=225xabc` and `chs=225x225`. -/
theorem C4_chart_size_witness :
    generateRadarChart decimalFloat (fun _ => .png [137, 80]) ⟨[]⟩
        ⟨[], ['r'], "225".toList, "t:1".toList, "0:|a".toList, true⟩
      = (.respond (.String 400 "Invalid chart size"), ⟨[]⟩) ∧
    generateRadarChart decimalFloat (fun _ => .png [137, 80]) ⟨[]⟩
        ⟨[], ['r'], "abcx225".toList, "t:1".toList, "0:|a".toList, true⟩
      = (.respond (.String 400 "Invalid chart width"), ⟨[]⟩) ∧
    generateRadarChart decimalFloat (fun _ => .png [137, 80]) ⟨[]⟩
        ⟨[], ['r'], "225xabc".toList, "t:1".toList, "0:|a".toList, true⟩
      = (.respond (.String 400 "Invalid chart height"), ⟨[]⟩) ∧
    parseSize "225x225".toList = .ok (225, 225) :=
  ⟨(C4_chart_size decimalFloat (fun _ => .png [137, 80]) ⟨[]⟩
      ⟨[], ['r'], "225".toList, "t:1".toList, "0:|a".toList, true⟩ (by rfl) (by rfl)).1
      (by decide),
   (C4_chart_size decimalFloat (fun _ => .png [137, 80]) ⟨[]⟩
      ⟨[], ['r'], "abcx225".toList, "t:1".toList, "0:|a".toList, true⟩ (by rfl) (by rfl)).2.1
      "abc".toList "225".toList (by rfl) (by rfl),
   (C4_chart_size decimalFloat (fun _ => .png [137, 80]) ⟨[]⟩
      ⟨[], ['r'], "225xabc".toList, "t:1".toList, "0:|a".toList, true⟩ (by rfl)
      (by rfl)).2.2.1 "225".toList "abc".toList 225 (by rfl) (by rfl) (by rfl),
   ((C4_chart_size decimalFloat (fun _ => .png [137, 80]) ⟨[]⟩
      ⟨[], ['r'], "225x225".toList, "t:1".toList, "0:|a".toList, true⟩ (by rfl)
      (by rfl)).2.2.2 "225".toList "225".toList 225 225 (by rfl) (by rfl) (by rfl)).1⟩

/-- C7, as the claim states it, fails: `chs=-5x0` passes size validation, and
the request is parsed with width -5 and height 0, neither of them positive. -/
theorem C7_size_not_positive :
    parseSize "-5x0".toList = .ok (-5, 0) ∧
    parseRequest decimalFloat
        ⟨[], ['r'], "-5x0".toList, "t:1,2,3".toList, "0:|a|b|c".toList, true⟩
      = .ok ⟨-5, 0, [[⟨1, 0⟩, ⟨2, 0⟩, ⟨3, 0⟩]], 1, ["a".toList, "b".toList, "c".toList]⟩ ∧
    ¬ ((0 : Int) < -5) ∧ ¬ ((0 : Int) < 0) :=
  ⟨by rfl, by rfl, by decide, by decide⟩

/-- C7 (amended): for every `chs` that passes size validation, the width and
the height are the integers `Atoi` reads from the two tokens of `chs`; they
lie in the range of a 64-bit `int` and may be zero or negative. -/
theorem C7_size_in_int_range (chs : List Char) (w h : Int)
    (hs : parseSize chs = .ok (w, h)) :
    (∃ a b : List Char, Split chs 'x' = [a, b] ∧ Atoi a = some w ∧ Atoi b = some h) ∧
    -(2 : Int) ^ 63 ≤ w ∧ w < (2 : Int) ^ 63 ∧ -(2 : Int) ^ 63 ≤ h ∧ h < (2 : Int) ^ 63 := by
  obtain ⟨a, b, hsp, ha, hb⟩ := parseSize_ok chs w h hs
  obtain ⟨hw1, hw2⟩ := Atoi_range a w ha
  obtain ⟨hh1, hh2⟩ := Atoi_range b h hb
  exact ⟨⟨a, b, hsp, ha, hb⟩, hw1, hw2, hh1, hh2⟩

/-- C7 (amended) at `chs=-5x0`. -/
theorem C7_size_in_int_range_witness :
    (∃ a b : List Char, Split "-5x0".toList 'x' = [a, b] ∧ Atoi a = some (-5) ∧
      Atoi b = some 0) ∧
    -(2 : Int) ^ 63 ≤ -5 ∧ (-5 : Int) < (2 : Int) ^ 63 ∧ -(2 : Int) ^ 63 ≤ 0 ∧
      (0 : Int) < (2 : Int) ^ 63 :=
  C7_size_in_int_range "-5x0".toList (-5) 0 (by rfl)

/-! ## C8: the chart type -/

/-- C8: on a cache miss, every request whose `cht` is not `r` (absent and
empty included) is answered 400 "Unsupported chart type", whatever `chs`,
`chd` and `chxl` are, and the cache is left as it was. -/
theorem C8_unsupported_chart_type (L : Float64) (render : ChartRequest L.F → Rendered)
    (cache : Cache) (c : Context) (hmiss : cache.Get c.QueryString = none)
    (hcht : c.cht ≠ ['r']) :
    generateRadarChart L render cache c
      = (.respond (.String 400 "Unsupported chart type"), cache) := by
  simp [generateRadarChart, hmiss, parseRequest, hcht]

/-- C8 at `cht=bar` and at an absent `cht`, with `chs`, `chd` and `chxl` that
would fail on their own. -/
theorem C8_unsupported_chart_type_witness :
    generateRadarChart decimalFloat (fun _ => .png [137, 80]) ⟨[]⟩
        ⟨"cht=bar".toList, "bar".toList, "225".toList, "t:x".toList, [], true⟩
      = (.respond (.String 400 "Unsupported chart type"), ⟨[]⟩) ∧
    generateRadarChart decimalFloat (fun _ => .png [137, 80]) ⟨[]⟩
        ⟨[], [], "225x225".toList, "t:1".toList, "0:|a".toList, true⟩
      = (.respond (.String 400 "Unsupported chart type"), ⟨[]⟩) :=
  ⟨C8_unsupported_chart_type decimalFloat (fun _ => .png [137, 80]) ⟨[]⟩
      ⟨"cht=bar".toList, "bar".toList, "225".toList, "t:x".toList, [], true⟩ (by rfl)
      (by decide),
   C8_unsupported_chart_type decimalFloat (fun _ => .png [137, 80]) ⟨[]⟩
      ⟨[], [], "225x225".toList, "t:1".toList, "0:|a".toList, true⟩ (by rfl) (by decide)⟩

/-! ## C9: the cache -/

theorem Cache.Get_Set (cache : Cache) (k : List Char) (v : Bytes) :
    (cache.Set k v).Get k = some v := by
  simp [Cache.Get, Cache.Set]

theorem generateRadarChart_hit (L : Float64) (render : ChartRequest L.F → Rendered)
    (cache : Cache) (c : Context) (image : Bytes)
    (hhit : cache.Get c.QueryString = some image) (hw : c.writeOK = true) :
    generateRadarChart L render cache c = (.respond (.png image.length image), cache) := by
  simp [generateRadarChart, hhit, hw]

theorem generateRadarChart_png (L : Float64) (render : ChartRequest L.F → Rendered)
    (cache cache2 : Cache) (c : Context) (n : Nat) (b : Bytes)
    (h : generateRadarChart L render cache c = (.respond (.png n b), cache2)) :
    n = b.length ∧ cache2.Get c.QueryString = some b := by
  unfold generateRadarChart at h
  split at h
  · rename_i image himage
    split at h
    · simp only [Prod.mk.injEq, Outcome.respond.injEq, Response.png.injEq] at h
      obtain ⟨⟨hn, hb⟩, hc⟩ := h
      subst hb hc
      exact ⟨hn.symm, himage⟩
    · simp at h
  · split at h
    · simp at h
    · simp at h
    · split at h
      · simp at h
      · simp at h
      · rename_i buf _
        split at h
        · simp only [Prod.mk.injEq, Outcome.respond.injEq, Response.png.injEq] at h
          obtain ⟨⟨hn, hb⟩, hc⟩ := h
          subst hb hc
          exact ⟨hn.symm, Cache.Get_Set _ _ _⟩
        · simp at h

/-- C9: if handling a request with query string `q` ends with the 200 image
response with body `b` (in particular after a cache miss, on the fresh path),
then `b` is in the cache under `q`, its `Content-Length` is the length of `b`,
and every later request with the same query string, handled while `b` is
still stored under `q` on a connection that accepts the write, is answered 200
with body `b` and `Content-Length` the length of `b` and leaves the cache
unchanged, whatever its parameters and whatever the renderer would do: it is
served from the cache without parsing or rendering. -/
theorem C9_cached_response (L : Float64) (render : ChartRequest L.F → Rendered)
    (cache cache2 : Cache) (c : Context) (n : Nat) (b : Bytes)
    (h : generateRadarChart L render cache c = (.respond (.png n b), cache2)) :
    n = b.length ∧ cache2.Get c.QueryString = some b ∧
      ∀ (L2 : Float64) (render2 : ChartRequest L2.F → Rendered) (later : Cache)
        (c2 : Context),
        c2.QueryString = c.QueryString → later.Get c.QueryString = some b →
          c2.writeOK = true →
          generateRadarChart L2 render2 later c2 = (.respond (.png b.length b), later) := by
  obtain ⟨hn, hget⟩ := generateRadarChart_png L render cache cache2 c n b h
  refine ⟨hn, hget, ?_⟩
  intro L2 render2 later c2 hq hlater hw
  exact generateRadarChart_hit L2 render2 later c2 b (by rw [hq]; exact hlater) hw

/-- C9 on the query `cht=r&chs=225x225&chd=t:1,2,3&chxl=0:|a|b|c` with an
empty cache and a renderer that answers the bytes `137, 80, 78, 71`: the fresh
path stores them, and the second handling serves them from the cache. -/
theorem C9_cached_response_witness :
    generateRadarChart decimalFloat (fun _ => .png [137, 80, 78, 71]) ⟨[]⟩
        ⟨"cht=r&chs=225x225&chd=t:1,2,3&chxl=0:|a|b|c".toList, ['r'], "225x225".toList,
          "t:1,2,3".toList, "0:|a|b|c".toList, true⟩
      = (.respond (.png 4 [137, 80, 78, 71]),
          ⟨[("cht=r&chs=225x225&chd=t:1,2,3&chxl=0:|a|b|c".toList, [137, 80, 78, 71])]⟩) ∧
    generateRadarChart decimalFloat (fun _ => .renderError)
        ⟨[("cht=r&chs=225x225&chd=t:1,2,3&chxl=0:|a|b|c".toList, [137, 80, 78, 71])]⟩
        ⟨"cht=r&chs=225x225&chd=t:1,2,3&chxl=0:|a|b|c".toList, ['r'], "225x225".toList,
          "t:1,2,3".toList, "0:|a|b|c".toList, true⟩
      = (.respond (.png 4 [137, 80, 78, 71]),
          ⟨[("cht=r&chs=225x225&chd=t:1,2,3&chxl=0:|a|b|c".toList, [137, 80, 78, 71])]⟩) :=
  ⟨by rfl,
   (C9_cached_response decimalFloat (fun _ => .png [137, 80, 78, 71]) ⟨[]⟩
      ⟨[("cht=r&chs=225x225&chd=t:1,2,3&chxl=0:|a|b|c".toList, [137, 80, 78, 71])]⟩
      ⟨"cht=r&chs=225x225&chd=t:1,2,3&chxl=0:|a|b|c".toList, ['r'], "225x225".toList,
        "t:1,2,3".toList, "0:|a|b|c".toList, true⟩ 4 [137, 80, 78, 71]
      (by rfl)).2.2 decimalFloat (fun _ => .renderError)
      ⟨[("cht=r&chs=225x225&chd=t:1,2,3&chxl=0:|a|b|c".toList, [137, 80, 78, 71])]⟩
      ⟨"cht=r&chs=225x225&chd=t:1,2,3&chxl=0:|a|b|c".toList, ['r'], "225x225".toList,
        "t:1,2,3".toList, "0:|a|b|c".toList, true⟩ (by rfl) (by rfl) (by rfl)⟩


end ImageCharts
